import Mathlib

/-!
Verification development for the inteview-copilot backend.

The Python sources are shallowly embedded: pure functions become Lean
functions, the relational store becomes an explicit list-of-rows state,
Python exceptions become `Except` errors, external model services
(Whisper transcription, Gemini generation) become oracle parameters, and
instants (`datetime.utcnow()`) become naturals passed in explicitly.
Audio samples are modelled as rationals: the claims under study only
depend on order comparisons and division by 32768, on which rationals
agree with IEEE floats for the inputs involved.

Python runtime errors that matter to the claims (TypeError on an
unexpected keyword argument, AttributeError on a missing dataclass
field, ValueError from numpy) are modelled explicitly; their message
strings are shortened versions of the CPython texts, without quotes.
-/

namespace InterviewCopilot

/-- Python exception values, as far as the embedded code distinguishes them. -/
inductive PyErr where
  | typeError (msg : String)
  | attributeError (msg : String)
  | valueError (msg : String)
  | nameError (msg : String)
  | exception (msg : String)
  deriving Repr, DecidableEq

/-- The message text `str(e)` of a Python exception. -/
def pyErrMsg : PyErr → String
  | .typeError m => m
  | .attributeError m => m
  | .valueError m => m
  | .nameError m => m
  | .exception m => m

/-! ### String helpers mirroring Python string semantics -/

/-- `chLead n h` holds iff the char list `n` is an initial segment of `h`. -/
def chLead : List Char → List Char → Bool
  | [], _ => true
  | _ :: _, [] => false
  | a :: as, b :: bs => a = b && chLead as bs

/-- `chSub n h` holds iff the char list `n` occurs contiguously inside `h`. -/
def chSub : List Char → List Char → Bool
  | n, [] => n.isEmpty
  | n, h :: t => chLead n (h :: t) || chSub n t

/-- Python substring test `needle in hay` on strings. -/
def occursIn (needle hay : String) : Bool :=
  chSub needle.data hay.data

/-- Python `str.lower()`; modelled as per-character ASCII lowering, which
agrees with CPython on all inputs the development evaluates. -/
def pyLower (s : String) : String :=
  ⟨s.data.map Char.toLower⟩

instance {ε α : Type} [DecidableEq ε] [DecidableEq α] : DecidableEq (Except ε α) := fun a b =>
  match a, b with
  | .ok x, .ok y =>
      if h : x = y then .isTrue (by rw [h]) else .isFalse (by intro c; cases c; exact h rfl)
  | .error e, .error f =>
      if h : e = f then .isTrue (by rw [h]) else .isFalse (by intro c; cases c; exact h rfl)
  | .ok _, .error _ => .isFalse (by intro c; cases c)
  | .error _, .ok _ => .isFalse (by intro c; cases c)

/-- Whitespace characters recognised by Python `str.strip()`. -/
def isSpaceChar (c : Char) : Bool :=
  c = ' ' || c = '\t' || c = '\n' || c = '\r' || c = '\x0b' || c = '\x0c'

/-- Python `str.strip()`: drop leading and trailing whitespace. -/
def pyStrip (s : String) : String :=
  ⟨((s.data.dropWhile isSpaceChar).reverse.dropWhile isSpaceChar).reverse⟩

/-- Python `"".join(chunks)`. -/
def strJoin (l : List String) : String :=
  l.foldl (fun a b => a ++ b) ""

/-- Python truthiness of an `Optional[str]`: falsy iff `None` or the empty string. -/
def optFalsy : Option String → Bool
  | none => true
  | some s => s = ""

/-! ### core/question_detector.py -/

/-- `QUESTION_MARKERS` from core/question_detector.py, verbatim. -/
def QUESTION_MARKERS : List String :=
  ["what", "why", "how", "when", "where", "who", "which", "can you", "could you",
   "would you", "jak", "dlaczego", "kiedy", "gdzie", "kto", "który", "czy",
   "możesz", "mógłbyś"]

/-- `MIN_QUESTION_LENGTH` from core/question_detector.py. -/
def MIN_QUESTION_LENGTH : Nat := 8

/-- The `QuestionDetector` class: a marker list and a minimum length. -/
structure QuestionDetector where
  markers : List String
  min_length : Nat
  deriving Repr, DecidableEq

/-- `QuestionDetector.is_question` from core/question_detector.py:
false when the text is empty or shorter than `min_length`, otherwise true
iff any marker occurs in the lower-cased text. -/
def QuestionDetector.is_question (d : QuestionDetector) (text : String) : Bool :=
  if text = "" || text.length < d.min_length then false
  else d.markers.any (fun marker => occursIn marker (pyLower text))

/-- The module-level `question_detector = QuestionDetector()` of app.py:
the constructor defaults resolve to the module constants. -/
def appQuestionDetector : QuestionDetector :=
  ⟨QUESTION_MARKERS, MIN_QUESTION_LENGTH⟩

/-! ### models.py -/

/-- The `Context` dataclass of models.py. Its three fields are `cv`,
`company_name` and `position`, each defaulting to the empty string; it has
no `company` field and no `custom_system_prompt` field. -/
structure Context where
  cv : String
  company_name : String
  position : String
  deriving Repr, DecidableEq

/-- `Context()` with all defaults. -/
def Context.empty : Context :=
  ⟨"", "", ""⟩

/-- The keyword names accepted by the dataclass constructor of `Context`. -/
def contextFields : List String :=
  ["cv", "company_name", "position"]

/-- Calling the dataclass constructor `Context(**kwargs)`: CPython raises
TypeError at the first keyword argument that is not a declared field,
otherwise fills the fields, defaulting absent ones to the empty string. -/
def Context.initKw (kwargs : List (String × String)) : Except PyErr Context :=
  match kwargs.find? (fun kv => !(contextFields.contains kv.1)) with
  | some kv => .error (.typeError ("Context.__init__ got an unexpected keyword argument " ++ kv.1))
  | none =>
      .ok ⟨(((kwargs.find? (fun kv => kv.1 = "cv")).map (fun kv => kv.2)).getD ""),
           (((kwargs.find? (fun kv => kv.1 = "company_name")).map (fun kv => kv.2)).getD ""),
           (((kwargs.find? (fun kv => kv.1 = "position")).map (fun kv => kv.2)).getD "")⟩

/-- Python attribute access on a `Context` value: the three declared fields
resolve, any other name raises AttributeError. -/
def Context.getattr (c : Context) (name : String) : Except PyErr String :=
  if name = "cv" then .ok c.cv
  else if name = "company_name" then .ok c.company_name
  else if name = "position" then .ok c.position
  else .error (.attributeError ("Context object has no attribute " ++ name))

/-! ### core/context_manager.py -/

/-- The fixed default persona block of `ContextManager.build_system_prompt`,
verbatim from core/context_manager.py. -/
def DEFAULT_PROMPT_BASE : String :=
  "Jesteś ekspertem od rozmów rekrutacyjnych.\n\nZASADY:\n- 2-4 zdania (zwięźle!)\n- Konkretne przykłady\n- Pozytywny ton\n- Po polsku\n"

/-- The `ContextManager` class: holds one stored `Context`. -/
structure ContextManager where
  context : Context
  deriving Repr, DecidableEq

/-- `ContextManager.build_system_prompt` from core/context_manager.py.
It takes no arguments beyond `self`: the base is always the fixed default
block, followed by a CV block iff `context.cv` is non-empty, a company
block iff `context.company_name` is non-empty, and a position block iff
`context.position` is non-empty, in that order. -/
def ContextManager.build_system_prompt (cm : ContextManager) : String :=
  let p0 := DEFAULT_PROMPT_BASE
  let p1 := if cm.context.cv ≠ "" then p0 ++ "\n\nTWOJE CV:\n" ++ cm.context.cv ++ "\n" else p0
  let p2 := if cm.context.company_name ≠ "" then p1 ++ "\nFIRMA: " ++ cm.context.company_name ++ "\n" else p1
  let p3 := if cm.context.position ≠ "" then p2 ++ "\nSTANOWISKO: " ++ cm.context.position ++ "\n" else p2
  p3

/-- The module-level `context_manager = ContextManager()` of app.py. -/
def appContextManager : ContextManager :=
  ⟨Context.empty⟩

/-- A call `cm.build_system_prompt(**kwargs)` as written at app.py lines
436-441 and 532-537 and 768-773: the method declares no parameters besides
`self`, so CPython raises TypeError as soon as any keyword argument is
passed. -/
def callBuildSystemPromptKw (cm : ContextManager) (kwargs : List (String × String)) :
    Except PyErr String :=
  match kwargs with
  | [] => .ok cm.build_system_prompt
  | kv :: _ =>
      .error (.typeError ("build_system_prompt got an unexpected keyword argument " ++ kv.1))

/-! ### db_models.py and the relational store

The ORM layer is modelled as an explicit value: a list of context rows and
a list of history rows. `interview_contexts` has columns `cv`, `company`
and `position` (note: no `custom_system_prompt` column exists);
`interview_history` has `question`, `answer` and `created_at`. Row ids are
modelled as the list length at insertion time; instants as naturals. A
query that raises before commit leaves the store unchanged. -/

/-- A row of the `interview_contexts` table (db_models.InterviewContext). -/
structure InterviewContextRow where
  id : Nat
  user_id : String
  cv : String
  company : String
  position : String
  updated_at : Nat
  deriving Repr, DecidableEq

/-- A row of the `interview_history` table (db_models.InterviewHistory). -/
structure InterviewHistoryRow where
  id : Nat
  user_id : String
  question : String
  answer : String
  created_at : Nat
  deriving Repr, DecidableEq

/-- The state of the durable store. -/
structure DB where
  contexts : List InterviewContextRow
  history : List InterviewHistoryRow
  deriving Repr, DecidableEq

/-- The store with no rows. -/
def emptyDB : DB :=
  ⟨[], []⟩

/-- Descending order on context rows by `updated_at` (ORDER BY updated_at DESC). -/
def ctxDesc (a b : InterviewContextRow) : Prop :=
  b.updated_at ≤ a.updated_at

instance : DecidableRel ctxDesc :=
  fun a b => Nat.decLe b.updated_at a.updated_at

/-- Descending order on history rows by `created_at` (ORDER BY created_at DESC). -/
def histDesc (a b : InterviewHistoryRow) : Prop :=
  b.created_at ≤ a.created_at

instance : DecidableRel histDesc :=
  fun a b => Nat.decLe b.created_at a.created_at

instance : IsTotal InterviewHistoryRow histDesc :=
  ⟨fun a b => (Nat.le_total b.created_at a.created_at).imp id id⟩

instance : IsTrans InterviewHistoryRow histDesc :=
  ⟨fun _ _ _ hab hbc => le_trans hbc hab⟩

/-- The query of db_operations.get_context and update_context: filter the
context rows by user, order by `updated_at` descending, take the first.
SQL leaves the tie order unspecified; the model uses a stable insertion
sort. -/
def latestContextRow (db : DB) (uid : String) : Option InterviewContextRow :=
  ((db.contexts.filter (fun r => r.user_id = uid)).insertionSort ctxDesc).head?

/-! ### db_operations.py -/

/-- `get_context` from db_operations.py: when a row exists for the user it
calls `Context(cv=..., company=..., position=...)` — but the dataclass has
no `company` keyword, so this raises TypeError; when no row exists it
returns `Context()`. -/
def dbGetContext (db : DB) (uid : String) : Except PyErr Context :=
  match latestContextRow db uid with
  | some row =>
      Context.initKw [("cv", row.cv), ("company", row.company), ("position", row.position)]
  | none => .ok Context.empty

/-- `update_context` from db_operations.py: find the latest row for the
user; update it in place, or create a new one, reading `context.cv`,
`context.company` and `context.position` — the `company` read raises
AttributeError on the dataclass, so the transaction never commits and the
store is unchanged. -/
def dbUpdateContext (db : DB) (uid : String) (ctx : Context) (now : Nat) :
    Except PyErr DB :=
  match latestContextRow db uid with
  | some row => do
      let cv ← ctx.getattr "cv"
      let company ← ctx.getattr "company"
      let position ← ctx.getattr "position"
      .ok { db with contexts :=
              db.contexts.map (fun r =>
                if r.id = row.id then
                  { r with cv := cv, company := company, position := position, updated_at := now }
                else r) }
  | none => do
      let cv ← ctx.getattr "cv"
      let company ← ctx.getattr "company"
      let position ← ctx.getattr "position"
      .ok { db with contexts :=
              db.contexts ++ [⟨db.contexts.length, uid, cv, company, position, now⟩] }

/-- `add_history_entry` from db_operations.py: append one row for the user
with the current instant. -/
def dbAddHistory (db : DB) (uid question answer : String) (now : Nat) : DB :=
  { db with history := db.history ++ [⟨db.history.length, uid, question, answer, now⟩] }

/-- One returned history dict `{question, answer, timestamp}`; the
isoformat timestamp is modelled as the underlying instant. -/
structure HistoryItem where
  question : String
  answer : String
  timestamp : Nat
  deriving Repr, DecidableEq

/-- The projection of a stored history row to the returned dict. -/
def historyProj (r : InterviewHistoryRow) : HistoryItem :=
  ⟨r.question, r.answer, r.created_at⟩

/-- `get_history` from db_operations.py: filter the history rows by user,
order by `created_at` descending, limit, and project each row to a dict. -/
def dbGetHistory (db : DB) (uid : String) (limit : Nat) : List HistoryItem :=
  (((db.history.filter (fun r => r.user_id = uid)).insertionSort histDesc).take limit).map
    historyProj

/-- The default `limit` of `get_history`, used by the endpoint call in app.py. -/
def GET_HISTORY_LIMIT : Nat := 100

/-- The `GET /api/history` endpoint body of app.py: the history list for the
session key, with the default limit. -/
def getHistoryEndpoint (db : DB) (uid : String) : List HistoryItem :=
  dbGetHistory db uid GET_HISTORY_LIMIT

/-! ### app.py — REST endpoints

An HTTP outcome is either a typed body or an error response with a status
code and a detail string. Endpoints without their own try/except let a
Python exception escape to the framework, which is modelled by returning
the raw `Except PyErr` value. -/

/-- An HTTP response: a body, or an error status with a detail string. -/
inductive HttpResult (α : Type) where
  | ok (body : α)
  | httpError (code : Nat) (detail : String)
  deriving Repr, DecidableEq

/-- The status code of an `HttpResult` (200 for a body). -/
def HttpResult.status {α : Type} : HttpResult α → Nat
  | .ok _ => 200
  | .httpError c _ => c

/-- The detail string of an `HttpResult` (empty for a body). -/
def HttpResult.detail {α : Type} : HttpResult α → String
  | .ok _ => ""
  | .httpError _ d => d

/-- The body of the `ContextResponse` pydantic model of app.py. -/
structure ContextResponse where
  cv : String
  company : String
  position : String
  custom_system_prompt : String
  deriving Repr, DecidableEq

/-- `GET /api/context` from app.py: read the stored context (or a fresh
`Context()`), then build a `ContextResponse` from the attributes
`context_data.cv`, `.company`, `.position`, `.custom_system_prompt` —
the `.company` access raises AttributeError on the dataclass. The handler
has no try/except, so the exception escapes. -/
def getContextEndpoint (db : DB) (uid : String) : Except PyErr ContextResponse := do
  let ctx ← dbGetContext db uid
  let cv ← ctx.getattr "cv"
  let company ← ctx.getattr "company"
  let position ← ctx.getattr "position"
  let custom ← ctx.getattr "custom_system_prompt"
  return ⟨cv, company, position, custom⟩

/-- `POST /api/context` from app.py: build `Context(cv=..., company=...,
position=..., custom_system_prompt=...)` — the dataclass accepts neither
keyword `company` nor `custom_system_prompt`, so this raises TypeError —
then persist it. On success the new store is returned. -/
def updateContextEndpoint (db : DB) (uid cv company position custom : String)
    (now : Nat) : Except PyErr DB := do
  let ctx ← Context.initKw
    [("cv", cv), ("company", company), ("position", position), ("custom_system_prompt", custom)]
  dbUpdateContext db uid ctx now

/-! ### app.py — audio decoding and process_audio -/

/-- `np.frombuffer(audio_bytes, dtype=np.float32)`: numpy raises ValueError
when the byte length is not a multiple of the 4-byte element size;
otherwise it yields one sample per 4 bytes (the model keeps only the
sample count, since transcription is an oracle). -/
def npFrombufferF32 (nbytes : Nat) : Except PyErr Nat :=
  if nbytes % 4 = 0 then .ok (nbytes / 4)
  else .error (.valueError "buffer size must be a multiple of element size")

/-- `audio_array.max()`: numpy raises ValueError on an empty array,
otherwise returns the (signed) maximum sample. -/
def npMax (xs : List ℚ) : Except PyErr ℚ :=
  match xs with
  | [] => .error (.valueError "zero-size array to reduction operation maximum which has no identity")
  | x :: t => .ok (t.foldl max x)

/-- The normalization step of process_audio (app.py lines 491-495): when
the signed maximum sample exceeds 1.0, divide every sample by 32768;
otherwise pass the buffer through unchanged. -/
def normalizeAudio (samples : List ℚ) : Except PyErr (List ℚ) := do
  let m ← npMax samples
  if 1 < m then .ok (samples.map (fun x => x / 32768))
  else .ok samples

/-- The body of the `ProcessAudioResponse` pydantic model of app.py. -/
structure ProcessAudioResponse where
  success : Bool
  question : Option String
  answer : Option String
  timestamp : Option Nat
  transcription : Option String
  deriving Repr, DecidableEq

/-- The try-block of `POST /api/process_audio` (app.py lines 489-580):
normalize, transcribe (oracle), short-circuit on an empty transcript and
on a non-question; for a question, read the context and its `company` and
`custom_system_prompt` attributes (AttributeError), build the system
prompt with keyword arguments (TypeError), generate (oracle), and append
one history row when the answer is non-empty. -/
def processAudioTry (db : DB) (uid : String) (samples : List ℚ)
    (transcribe : List ℚ → Option String)
    (generate : String → String → Except PyErr String)
    (now : Nat) : Except PyErr (DB × ProcessAudioResponse) := do
  let audio ← normalizeAudio samples
  let text? := transcribe audio
  if optFalsy text? then
    return (db, ⟨true, none, none, none, none⟩)
  else
    let text := text?.getD ""
    if appQuestionDetector.is_question text then
      let ctx ← dbGetContext db uid
      let cv ← ctx.getattr "cv"
      let company ← ctx.getattr "company"
      let position ← ctx.getattr "position"
      let custom ← ctx.getattr "custom_system_prompt"
      let sys ← callBuildSystemPromptKw appContextManager
        [("cv", cv), ("company", company), ("position", position), ("custom_system_prompt", custom)]
      let answer ← generate sys text
      if answer ≠ "" then
        return (dbAddHistory db uid text answer now, ⟨true, some text, some answer, some now, none⟩)
      else
        return (db, ⟨true, some text, none, none, none⟩)
    else
      return (db, ⟨true, none, none, none, some text⟩)

/-- `POST /api/process_audio` from app.py: the try-block wrapped by
`except Exception` which answers HTTP 500 with the exception text; an
aborted request leaves the store unchanged. -/
def processAudio (db : DB) (uid : String) (samples : List ℚ)
    (transcribe : List ℚ → Option String)
    (generate : String → String → Except PyErr String)
    (now : Nat) : DB × HttpResult ProcessAudioResponse :=
  match processAudioTry db uid samples transcribe generate now with
  | .ok (db2, resp) => (db2, .ok resp)
  | .error e => (db, .httpError 500 ("Processing error: " ++ pyErrMsg e))

/-! ### app.py — transcribe endpoint -/

/-- The body of the `TranscribeResponse` pydantic model of app.py. -/
structure TranscribeResponseBody where
  text : String
  language : String
  timestamp : Nat
  deriving Repr, DecidableEq

/-- An exception inside an endpoint try-block: either a Python error or an
explicitly raised HTTPException. -/
inductive AppExc where
  | py (e : PyErr)
  | http (code : Nat) (detail : String)
  deriving Repr, DecidableEq

/-- The try-block of `POST /api/transcribe` (app.py lines 379-407): decode
the audio bytes into float32 samples (ValueError on a bad length),
transcribe (oracle keyed by the sample count), raise HTTPException 400
when the transcript is falsy, otherwise answer with the text. -/
def transcribeTry (nbytes : Nat) (language : String)
    (transcribe : Nat → Option String) (now : Nat) :
    Except AppExc TranscribeResponseBody := do
  let n ← match npFrombufferF32 nbytes with
    | .ok n => Except.ok n
    | .error e => Except.error (AppExc.py e)
  let text? := transcribe n
  if optFalsy text? then
    Except.error (AppExc.http 400 "Failed to transcribe audio")
  else
    return ⟨text?.getD "", language, now⟩

/-- `POST /api/transcribe` from app.py: the try-block wrapped by
`except HTTPException: raise` (which keeps the 400) and `except Exception`
(which answers HTTP 500 with the exception text). -/
def transcribeEndpoint (nbytes : Nat) (language : String)
    (transcribe : Nat → Option String) (now : Nat) :
    HttpResult TranscribeResponseBody :=
  match transcribeTry nbytes language transcribe now with
  | .ok body => .ok body
  | .error (.http c d) => .httpError c d
  | .error (.py e) => .httpError 500 ("Transcription error: " ++ pyErrMsg e)

/-! ### app.py + core/gemini_client.py — REST generation failure path -/

/-- The body of the `GenerateResponse` pydantic model of app.py. -/
structure GenerateResponseBody where
  answer : String
  timestamp : Nat
  deriving Repr, DecidableEq

/-- The except-clause of `GeminiClient.generate_response_async`
(core/gemini_client.py lines 97-100): an upstream failure is re-raised as
`Exception` whose text is the upstream error text with a fixed marker in
front. -/
def geminiWrapError (raw : String) : String :=
  "Gemini API Error: " ++ raw

/-- The `except Exception` clause of `POST /api/generate` (app.py lines
469-472): the caught exception text is embedded in the detail of an HTTP
500 response. -/
def restGenerationFailure (emsg : String) : HttpResult GenerateResponseBody :=
  .httpError 500 ("Generation error: " ++ emsg)

/-- The composed REST path for a generation failure: the upstream error
raised inside the Gemini client and then translated by the endpoint. -/
def generateEndpointOnFailure (raw : String) : HttpResult GenerateResponseBody :=
  restGenerationFailure (geminiWrapError raw)

/-! ### app.py — WebSocket handlers -/

/-- Outbound WebSocket events of /ws/audio. -/
inductive WsEvent where
  | transcription (text : String)
  | question_detected (question : String)
  | answer_chunk (delta : String)
  | answer_final (answer : String)
  | status (message : String)
  | pong
  | wsError (message : String)
  deriving Repr, DecidableEq

/-- The streaming for-loop of the WebSocket audio branch (app.py lines
777-789), restructured as a recursion over the delta sequence: a delta
whose strip is non-empty is appended to the accumulator and forwarded as
an `answer_chunk` event; any other delta is dropped. Returns the
accumulated chunk list and the emitted events, both in order. -/
def wsStreamLoop : List String → List String × List WsEvent
  | [] => ([], [])
  | c :: rest =>
      if pyStrip c ≠ "" then
        let p := wsStreamLoop rest
        (c :: p.1, WsEvent.answer_chunk c :: p.2)
      else wsStreamLoop rest

/-- The streaming loop followed by the final-answer step (app.py lines
777-801): join the accumulated chunks, strip, and emit one `answer_final`
event iff the result is non-empty. -/
def wsAfterStream (deltas : List String) : List WsEvent :=
  let p := wsStreamLoop deltas
  let full := pyStrip (strJoin p.1)
  p.2 ++ (if full ≠ "" then [WsEvent.answer_final full] else [])

/-- The `audio` branch of the WebSocket loop (app.py lines 732-801),
with transcription and generator deltas as oracles. Returns the resulting
store, the events sent, and whether the connection was closed by the
outer exception handler. A falsy transcript emits nothing; a question
emits `transcription` and `question_detected`, then reads the context —
where the `company` attribute read raises AttributeError (or the context
query itself raises TypeError when a row exists), so the outer handler
closes the connection before any streaming; the streaming continuation is
nevertheless embedded faithfully. No branch writes history. -/
def wsHandleAudio (db : DB) (uid : String) (samples : List ℚ)
    (transcribe : List ℚ → Option String)
    (deltas : List String) : DB × (List WsEvent × Bool) :=
  let text? := transcribe samples
  if optFalsy text? then (db, ([], false))
  else
    let text := text?.getD ""
    let evs0 := [WsEvent.transcription text]
    if appQuestionDetector.is_question text then
      let evs1 := evs0 ++ [WsEvent.question_detected text]
      match dbGetContext db uid with
      | .error _ => (db, (evs1, true))
      | .ok ctx =>
          match ctx.getattr "cv" with
          | .error _ => (db, (evs1, true))
          | .ok cv =>
              match ctx.getattr "company" with
              | .error _ => (db, (evs1, true))
              | .ok company =>
                  match ctx.getattr "position" with
                  | .error _ => (db, (evs1, true))
                  | .ok position =>
                      match ctx.getattr "custom_system_prompt" with
                      | .error _ => (db, (evs1, true))
                      | .ok custom =>
                          match callBuildSystemPromptKw appContextManager
                              [("cv", cv), ("company", company), ("position", position),
                               ("custom_system_prompt", custom)] with
                          | .error _ => (db, (evs1, true))
                          | .ok _sys => (db, (evs1 ++ wsAfterStream deltas, false))
    else (db, (evs0, false))

/-- The `context` branch of the WebSocket loop (app.py lines 805-826):
build `Context(cv=..., company=..., position=..., custom_system_prompt=...)`
— TypeError, caught by the outer handler which closes the connection with
no event and no store change. Were the constructor and the update to
succeed, the following log statement reads `context_data.get(...)` where
no `context_data` dict is in scope, raising before the acknowledgement is
sent; so no branch ever emits the `status` event. -/
def wsHandleContext (db : DB) (uid cv company position custom : String)
    (now : Nat) : DB × (List WsEvent × Bool) :=
  match Context.initKw
      [("cv", cv), ("company", company), ("position", position),
       ("custom_system_prompt", custom)] with
  | .error _ => (db, ([], true))
  | .ok ctx =>
      match dbUpdateContext db uid ctx now with
      | .error _ => (db, ([], true))
      | .ok db2 => (db2, ([], true))

/-- The `ping` branch of the WebSocket loop (app.py lines 803-804). -/
def wsHandlePing (db : DB) : DB × (List WsEvent × Bool) :=
  (db, ([WsEvent.pong], false))

/-- A store holding one context row, used to evaluate the read path when a
row exists. -/
def sampleCtxDB : DB :=
  ⟨[⟨0, "bob", "cv text", "Acme", "Dev", 10⟩], []⟩

/-- A store holding three history rows for two users, with distinct
timestamps, used to evaluate the history read path. -/
def sampleHistDB : DB :=
  ⟨[], [⟨0, "u", "q1", "a1", 1⟩, ⟨1, "v", "qx", "ax", 2⟩, ⟨2, "u", "q2", "a2", 3⟩]⟩

/-! ### Helper lemmas -/

theorem chLead_iff : ∀ (n h : List Char), chLead n h = true ↔ ∃ t, h = n ++ t
  | [], h => by simp [chLead]
  | _ :: _, [] => by simp [chLead]
  | a :: as, b :: bs => by
      simp only [chLead, Bool.and_eq_true, decide_eq_true_eq, chLead_iff as bs,
        List.cons_append, List.cons.injEq]
      constructor
      · rintro ⟨rfl, t, rfl⟩
        exact ⟨t, rfl, rfl⟩
      · rintro ⟨t, rfl, rfl⟩
        exact ⟨rfl, t, rfl⟩

theorem chSub_iff : ∀ (n h : List Char), chSub n h = true ↔ ∃ p t, h = p ++ n ++ t
  | n, [] => by
      constructor
      · intro hn
        refine ⟨[], [], ?_⟩
        simp only [chSub, List.isEmpty_iff] at hn
        simp [hn]
      · rintro ⟨p, t, hpt⟩
        obtain ⟨hp, hq⟩ := List.append_eq_nil.mp hpt.symm
        obtain ⟨hn, ht⟩ := List.append_eq_nil.mp hp
        simp [chSub, ht]
  | n, c :: cs => by
      rw [chSub, Bool.or_eq_true, chLead_iff, chSub_iff n cs]
      constructor
      · rintro (⟨s, hs⟩ | ⟨p, s, rfl⟩)
        · exact ⟨[], s, by simpa using hs⟩
        · exact ⟨c :: p, s, rfl⟩
      · rintro ⟨p, s, hs⟩
        cases p with
        | nil =>
            exact Or.inl ⟨s, by simpa using hs⟩
        | cons x xs =>
            simp only [List.cons_append, List.cons.injEq] at hs
            exact Or.inr ⟨xs, s, hs.2⟩

theorem occursIn_iff (needle hay : String) :
    occursIn needle hay = true ↔ ∃ pre post : String, hay = pre ++ needle ++ post := by
  rw [occursIn, chSub_iff]
  constructor
  · rintro ⟨p, t, hpt⟩
    refine ⟨⟨p⟩, ⟨t⟩, String.ext ?_⟩
    simpa using hpt
  · rintro ⟨pre, post, rfl⟩
    exact ⟨pre.data, post.data, by simp⟩

/-! ### Claims -/

/-- C8. `is_question(text)` returns false for every text that is empty or
shorter than the configured minimum length; for every other text it
returns true iff the lower-cased text contains at least one configured
marker as a contiguous substring, at any position. -/
theorem is_question_spec (d : QuestionDetector) (text : String) :
    ((text = "" ∨ text.length < d.min_length) → d.is_question text = false) ∧
    (text ≠ "" → d.min_length ≤ text.length →
      (d.is_question text = true ↔
        ∃ m ∈ d.markers, ∃ pre post : String, pyLower text = pre ++ m ++ post)) := by
  constructor
  · intro h
    rw [QuestionDetector.is_question, if_pos]
    rcases h with h | h
    · simp [h]
    · simp [h]
  · intro h1 h2
    rw [QuestionDetector.is_question, if_neg]
    · rw [List.any_eq_true]
      exact exists_congr fun m => and_congr_right fun _ => occursIn_iff m (pyLower text)
    · simp [h1, Nat.not_lt.mpr h2]

/-- Witness for C8 at concrete inputs: a short text is rejected, and a
marker-bearing text of sufficient length is accepted. -/
theorem is_question_spec_witness :
    appQuestionDetector.is_question "hi" = false ∧
    appQuestionDetector.is_question "What is a monad" = true :=
  ⟨(is_question_spec appQuestionDetector "hi").1 (Or.inr (by decide)),
   ((is_question_spec appQuestionDetector "What is a monad").2 (by decide) (by decide)).mpr
     ⟨"what", by decide, "", " is a monad", by decide⟩⟩

/-- C1. The context update and read endpoints crash instead of
round-tripping: the dataclass `Context` of models.py has fields `cv`,
`company_name`, `position` and nothing else, while app.py and
db_operations.py construct it with keyword `company` and
`custom_system_prompt` (TypeError) and read attributes `company` and
`custom_system_prompt` (AttributeError). Update stores nothing, and even
a read for a fresh session fails. -/
theorem context_endpoints_crash :
    updateContextEndpoint emptyDB "alice" "cv text" "Acme" "Dev" "Be brief" 0
      = .error (.typeError "Context.__init__ got an unexpected keyword argument company") ∧
    getContextEndpoint emptyDB "alice"
      = .error (.attributeError "Context object has no attribute company") ∧
    getContextEndpoint sampleCtxDB "bob"
      = .error (.typeError "Context.__init__ got an unexpected keyword argument company") :=
  ⟨rfl, rfl, rfl⟩

/-- C2. The call `build_system_prompt(cv=..., company=..., position=...,
custom_system_prompt=...)` made by app.py raises TypeError, because the
method of core/context_manager.py accepts no arguments; and the method
itself never consults a custom system prompt — its base is always the
fixed default block, to which a CV block is appended when the stored CV
is non-empty. -/
theorem build_system_prompt_kwargs_crash :
    callBuildSystemPromptKw appContextManager
      [("cv", "my cv"), ("company", "Acme"), ("position", "Dev"),
       ("custom_system_prompt", "CUSTOM")]
      = .error (.typeError "build_system_prompt got an unexpected keyword argument cv") ∧
    ContextManager.build_system_prompt ⟨Context.empty⟩ = DEFAULT_PROMPT_BASE ∧
    ContextManager.build_system_prompt ⟨⟨"X", "", ""⟩⟩
      = DEFAULT_PROMPT_BASE ++ "\n\nTWOJE CV:\nX\n" :=
  ⟨rfl, rfl, rfl⟩

/-- C3. `process_audio` behaves as claimed on an empty transcript and on a
non-question, but every question crashes with AttributeError while
reading `context_data.company`, so the request answers HTTP 500 and no
history entry is ever appended — the success-with-answer path is
unreachable. -/
theorem process_audio_question_crash :
    processAudio emptyDB "anonymous" [0] (fun _ => none) (fun _ _ => .ok "An answer") 5
      = (emptyDB, .ok ⟨true, none, none, none, none⟩) ∧
    processAudio emptyDB "anonymous" [0] (fun _ => some "I think the weather is nice")
        (fun _ _ => .ok "An answer") 5
      = (emptyDB, .ok ⟨true, none, none, none, some "I think the weather is nice"⟩) ∧
    processAudio emptyDB "anonymous" [0] (fun _ => some "What is your experience")
        (fun _ _ => .ok "An answer") 5
      = (emptyDB, .httpError 500 "Processing error: Context object has no attribute company") :=
  ⟨rfl, by decide, by decide⟩

/-- C5. A WebSocket `context` message crashes instead of acknowledging:
`Context(cv=..., company=..., position=..., custom_system_prompt=...)`
raises TypeError, the outer exception handler closes the connection, no
`status` event is emitted and the store is unchanged. -/
theorem ws_context_message_crash :
    wsHandleContext emptyDB "anonymous" "cv text" "Acme" "Dev" "" 3
      = (emptyDB, ([], true)) :=
  rfl

/-- C6 counterexample. A buffer whose maximum absolute magnitude exceeds
1.0 but whose signed maximum does not (all samples negative) is passed
through unchanged: the code tests `audio_array.max() > 1.0`, not the
absolute magnitude, so the claimed rescale does not happen at `[-2]`. -/
theorem normalize_audio_abs_counterexample :
    normalizeAudio [(-2 : ℚ)] = .ok [-2] ∧
    normalizeAudio [(-2 : ℚ)] ≠ .ok [(-2 : ℚ) / 32768] := by
  refine ⟨rfl, ?_⟩
  rw [show normalizeAudio [(-2 : ℚ)] = Except.ok [-2] from rfl]
  intro h
  simp only [Except.ok.injEq, List.cons.injEq, and_true] at h
  norm_num at h

/-- C6 amended. The rescale is keyed on the signed maximum sample: when
`max(samples)` exceeds 1.0 every sample is divided by 32768, and
otherwise the buffer is passed through unchanged (so an all-negative
16-bit buffer is never rescaled). -/
theorem normalize_audio_signed_max (samples : List ℚ) (m : ℚ)
    (hm : npMax samples = .ok m) :
    (1 < m → normalizeAudio samples = .ok (samples.map (fun x => x / 32768))) ∧
    (m ≤ 1 → normalizeAudio samples = .ok samples) := by
  constructor
  · intro h
    rw [normalizeAudio, hm]
    simp [Bind.bind, Except.bind, if_pos h]
  · intro h
    rw [normalizeAudio, hm]
    simp [Bind.bind, Except.bind, if_neg (not_lt.mpr h)]

/-- Witness for C6 at concrete inputs: a positive 16-bit-style buffer with
maximum 32767 is rescaled to maximum 32767/32768, and an already
normalized buffer is unchanged. -/
theorem normalize_audio_signed_max_witness :
    normalizeAudio [(32767 : ℚ)] = .ok [32767 / 32768] ∧
    normalizeAudio [(1 : ℚ), 0] = .ok [1, 0] := by
  constructor
  · have h := (normalize_audio_signed_max [(32767 : ℚ)] 32767 rfl).1 (by norm_num)
    simpa using h
  · exact (normalize_audio_signed_max [(1 : ℚ), 0] 1 rfl).2 (le_refl 1)

/-- C7 counterexample. A transcribe request whose decoded audio is 5 bytes
long, and a process_audio request with an empty sample list, both surface
as HTTP 500 responses, not 400: there is no `DecodeError` type and the
numpy ValueError is caught by the generic `except Exception` clause. -/
theorem decode_error_500_counterexample :
    transcribeEndpoint 5 "pl" (fun _ => some "hello") 0
      = .httpError 500 "Transcription error: buffer size must be a multiple of element size" ∧
    (transcribeEndpoint 5 "pl" (fun _ => some "hello") 0).status ≠ 400 ∧
    (processAudio emptyDB "anonymous" [] (fun _ => some "hello") (fun _ _ => .ok "x") 0).2
      = .httpError 500
          "Processing error: zero-size array to reduction operation maximum which has no identity" ∧
    (processAudio emptyDB "anonymous" [] (fun _ => some "hello") (fun _ _ => .ok "x") 0).2.status
      ≠ 400 :=
  ⟨rfl, by decide, rfl, by decide⟩

/-- C7 amended. A decoded byte length that is not a multiple of 4, and an
empty sample sequence, each abort the pipeline with a ValueError that is
surfaced to the client as an HTTP 500 response (with the exception text in
the detail), not as a 400; the store is left unchanged. -/
theorem decode_error_spec :
    (∀ (nbytes : Nat) (lang : String) (tr : Nat → Option String) (now : Nat),
      nbytes % 4 ≠ 0 →
      transcribeEndpoint nbytes lang tr now
        = .httpError 500 "Transcription error: buffer size must be a multiple of element size") ∧
    (∀ (db : DB) (uid : String) (tr : List ℚ → Option String)
        (gen : String → String → Except PyErr String) (now : Nat),
      processAudio db uid [] tr gen now
        = (db, .httpError 500
            "Processing error: zero-size array to reduction operation maximum which has no identity")) := by
  constructor
  · intro nbytes lang tr now h
    simp [transcribeEndpoint, transcribeTry, npFrombufferF32, h, Bind.bind, Except.bind,
      pyErrMsg]
  · intro db uid tr gen now
    rfl

/-- Witness for C7 at concrete inputs: byte length 5 and an empty sample
list, with arbitrary oracles. -/
theorem decode_error_spec_witness :
    transcribeEndpoint 7 "en" (fun _ => some "ok") 1
      = .httpError 500 "Transcription error: buffer size must be a multiple of element size" ∧
    processAudio emptyDB "bob" [] (fun _ => none) (fun _ _ => .ok "y") 1
      = (emptyDB, .httpError 500
          "Processing error: zero-size array to reduction operation maximum which has no identity") :=
  ⟨decode_error_spec.1 7 "en" (fun _ => some "ok") 1 (by decide),
   decode_error_spec.2 emptyDB "bob" (fun _ => none) (fun _ _ => .ok "y") 1⟩

/-- C9 counterexample. A generation failure in the REST path leaks the raw
upstream error text: the HTTP 500 detail embeds `str(e)`, which is the
upstream message behind a fixed marker. -/
theorem generation_error_leak_counterexample :
    generateEndpointOnFailure "quota exceeded for project 12345"
      = .httpError 500 "Generation error: Gemini API Error: quota exceeded for project 12345" ∧
    occursIn "quota exceeded for project 12345"
      (generateEndpointOnFailure "quota exceeded for project 12345").detail = true :=
  ⟨rfl, by decide⟩

/-- C9 amended. Every generation failure in the REST path is surfaced as
an HTTP 500 whose detail is the upstream error text behind the fixed
marker "Generation error: Gemini API Error: " — so no stack trace is
included, but the raw upstream error text always appears verbatim in the
response body. -/
theorem generation_failure_leaks_upstream_text (raw : String) :
    (generateEndpointOnFailure raw).status = 500 ∧
    (generateEndpointOnFailure raw).detail
      = "Generation error: " ++ ("Gemini API Error: " ++ raw) ∧
    ∃ pre post : String, (generateEndpointOnFailure raw).detail = pre ++ raw ++ post := by
  refine ⟨rfl, rfl, "Generation error: Gemini API Error: ", "", ?_⟩
  show "Generation error: " ++ ("Gemini API Error: " ++ raw)
      = "Generation error: Gemini API Error: " ++ raw ++ ""
  rw [String.append_empty, ← String.append_assoc]
  rfl

/-- Witness for C9 at a concrete upstream error text. -/
theorem generation_failure_leaks_upstream_text_witness :
    (generateEndpointOnFailure "boom").status = 500 ∧
    (generateEndpointOnFailure "boom").detail
      = "Generation error: " ++ ("Gemini API Error: " ++ "boom") :=
  ⟨(generation_failure_leaks_upstream_text "boom").1,
   (generation_failure_leaks_upstream_text "boom").2.1⟩

theorem wsStreamLoop_eq (deltas : List String) :
    wsStreamLoop deltas
      = (deltas.filter (fun c => pyStrip c ≠ ""),
         (deltas.filter (fun c => pyStrip c ≠ "")).map WsEvent.answer_chunk) := by
  induction deltas with
  | nil => rfl
  | cons c rest ih =>
      by_cases h : pyStrip c ≠ ""
      · simp [wsStreamLoop, List.filter_cons, h, ih]
      · simp [wsStreamLoop, List.filter_cons, h, ih]

/-- C4 counterexample. A WebSocket audio message carrying a question, with
a streaming generator producing non-empty deltas, forwards no
`answer_chunk` events, emits no `answer_final` event, and writes no
history record: the handler raises AttributeError while reading
`context_data.company` and the connection is closed before any streaming
happens. -/
theorem ws_streaming_no_history_counterexample :
    wsHandleAudio emptyDB "anonymous" [0] (fun _ => some "What is this about")
        ["Hello ", "world"]
      = (emptyDB,
         ([WsEvent.transcription "What is this about",
           WsEvent.question_detected "What is this about"], true)) ∧
    WsEvent.answer_chunk "Hello "
      ∉ (wsHandleAudio emptyDB "anonymous" [0] (fun _ => some "What is this about")
          ["Hello ", "world"]).2.1 ∧
    WsEvent.answer_final "Hello world"
      ∉ (wsHandleAudio emptyDB "anonymous" [0] (fun _ => some "What is this about")
          ["Hello ", "world"]).2.1 ∧
    (wsHandleAudio emptyDB "anonymous" [0] (fun _ => some "What is this about")
        ["Hello ", "world"]).1.history = emptyDB.history :=
  ⟨by decide, by decide, by decide, rfl⟩

/-- C4 amended. In the streaming continuation as written, a delta is
forwarded as an `answer_chunk` iff its strip is non-empty, the
`answer_final` event carries exactly the stripped concatenation of the
kept deltas and is emitted only when that is non-empty; and the WebSocket
audio path never writes to the store (there is no durable history record
in the WebSocket path — moreover the continuation is unreachable, see the
counterexample). -/
theorem ws_stream_filter_spec :
    (∀ (deltas : List String) (c : String),
       WsEvent.answer_chunk c ∈ wsAfterStream deltas → pyStrip c ≠ "" ∧ c ∈ deltas) ∧
    (∀ (deltas : List String) (c : String),
       c ∈ deltas → pyStrip c ≠ "" → WsEvent.answer_chunk c ∈ wsAfterStream deltas) ∧
    (∀ (deltas : List String) (a : String),
       WsEvent.answer_final a ∈ wsAfterStream deltas →
         a = pyStrip (strJoin (deltas.filter (fun c => pyStrip c ≠ ""))) ∧ a ≠ "") ∧
    (∀ (db : DB) (uid : String) (samples : List ℚ)
        (transcribe : List ℚ → Option String) (deltas : List String),
       (wsHandleAudio db uid samples transcribe deltas).1 = db) := by
  refine ⟨?_, ?_, ?_, ?_⟩
  · intro deltas c hc
    rw [wsAfterStream, wsStreamLoop_eq] at hc
    simp only [List.mem_append, List.mem_map] at hc
    rcases hc with ⟨d, hd, hdc⟩ | hfin
    · cases hdc
      have hm := List.mem_filter.mp hd
      exact ⟨of_decide_eq_true hm.2, hm.1⟩
    · by_cases hfull : pyStrip (strJoin (deltas.filter (fun c => pyStrip c ≠ ""))) ≠ ""
      · rw [if_pos hfull] at hfin
        simp at hfin
      · rw [if_neg hfull] at hfin
        simp at hfin
  · intro deltas c hc hne
    rw [wsAfterStream, wsStreamLoop_eq]
    refine List.mem_append_left _ (List.mem_map_of_mem _ ?_)
    exact List.mem_filter.mpr ⟨hc, decide_eq_true hne⟩
  · intro deltas a ha
    rw [wsAfterStream, wsStreamLoop_eq] at ha
    simp only [List.mem_append, List.mem_map] at ha
    rcases ha with ⟨d, _, hdc⟩ | hfin
    · cases hdc
    · by_cases hfull : pyStrip (strJoin (deltas.filter (fun c => pyStrip c ≠ ""))) ≠ ""
      · rw [if_pos hfull] at hfin
        simp only [List.mem_singleton] at hfin
        cases hfin
        exact ⟨rfl, hfull⟩
      · rw [if_neg hfull] at hfin
        simp at hfin
  · intro db uid samples transcribe deltas
    unfold wsHandleAudio
    repeat' split
    all_goals (first | rfl | (dsimp only; split_ifs <;> rfl))

/-- Witness for C4 at concrete inputs: a non-whitespace delta is forwarded
by the streaming loop, and a concrete WebSocket audio run leaves the
store unchanged. -/
theorem ws_stream_filter_spec_witness :
    WsEvent.answer_chunk "Hello " ∈ wsAfterStream ["Hello ", "  ", "world"] ∧
    (wsHandleAudio emptyDB "anonymous" [0] (fun _ => some "What is this about")
        ["Hi"]).1 = emptyDB :=
  ⟨ws_stream_filter_spec.2.1 ["Hello ", "  ", "world"] "Hello " (by decide) (by decide),
   ws_stream_filter_spec.2.2.2 emptyDB "anonymous" [0]
     (fun _ => some "What is this about") ["Hi"]⟩

/-- C10. `get_history` returns the 100 most recent entries: the returned
count is exactly the minimum of 100 and the number of rows stored for the
user (so exactly 100 when more have been appended, and all of them when
fewer exist), ordered newest first (under distinct per-user timestamps);
every returned entry is the projection of a stored row of that user, and
every stored row of the user that is not returned is older than all
returned entries — it remains in the store but is not returned. -/
theorem get_history_spec (db : DB) (uid : String)
    (hnd : ((db.history.filter (fun r => r.user_id = uid)).map
              InterviewHistoryRow.created_at).Nodup) :
    (getHistoryEndpoint db uid).length ≤ 100 ∧
    (getHistoryEndpoint db uid).length
      = min 100 (db.history.filter (fun r => r.user_id = uid)).length ∧
    (getHistoryEndpoint db uid).Pairwise (fun e f => f.timestamp < e.timestamp) ∧
    (∀ e ∈ getHistoryEndpoint db uid,
       ∃ r ∈ db.history, r.user_id = uid ∧ e = historyProj r) ∧
    (∀ r ∈ db.history, r.user_id = uid →
       historyProj r ∉ getHistoryEndpoint db uid →
       ∀ e ∈ getHistoryEndpoint db uid, r.created_at < e.timestamp) := by
  set rows := db.history.filter (fun r => r.user_id = uid) with hrows
  set sorted := rows.insertionSort histDesc with hsorteddef
  have hperm : sorted.Perm rows := List.perm_insertionSort histDesc rows
  have hnd2 : (sorted.map InterviewHistoryRow.created_at).Nodup :=
    ((hperm.map InterviewHistoryRow.created_at).nodup_iff).mpr hnd
  have hsorted : sorted.Sorted histDesc := List.sorted_insertionSort histDesc rows
  have hne : sorted.Pairwise (fun a b => a.created_at ≠ b.created_at) :=
    List.pairwise_map.mp hnd2
  have hstrict : sorted.Pairwise (fun a b => b.created_at < a.created_at) :=
    (hsorted.and hne).imp fun h => Nat.lt_of_le_of_ne h.1 fun hc => h.2 hc.symm
  have hresult : getHistoryEndpoint db uid = (sorted.take 100).map historyProj := rfl
  refine ⟨?_, ?_, ?_, ?_, ?_⟩
  · rw [hresult]
    simp [List.length_take]
  · rw [hresult]
    simp [List.length_take, hperm.length_eq]
  · rw [hresult]
    refine List.pairwise_map.mpr ?_
    exact (hstrict.sublist (List.take_sublist 100 sorted)).imp fun h => h
  · intro e he
    rw [hresult] at he
    obtain ⟨s, hs, rfl⟩ := List.mem_map.mp he
    have hs2 : s ∈ rows := hperm.mem_iff.mp ((List.take_sublist 100 sorted).subset hs)
    obtain ⟨hmem, hu⟩ := List.mem_filter.mp hs2
    exact ⟨s, hmem, of_decide_eq_true hu, rfl⟩
  · intro r hr hu hnot e he
    have hrin : r ∈ sorted := hperm.mem_iff.mpr (List.mem_filter.mpr ⟨hr, decide_eq_true hu⟩)
    have hsplit : sorted = sorted.take 100 ++ sorted.drop 100 :=
      (List.take_append_drop 100 sorted).symm
    have hdrop : r ∈ sorted.drop 100 := by
      rcases List.mem_append.mp (hsplit ▸ hrin) with h | h
      · exact absurd (hresult ▸ List.mem_map_of_mem historyProj h) hnot
      · exact h
    rw [hresult] at he
    obtain ⟨s, hs, rfl⟩ := List.mem_map.mp he
    have hpair := hsplit ▸ hstrict
    exact (List.pairwise_append.mp hpair).2.2 s hs r hdrop

/-- Witness for C10 at a concrete store with three rows, two of them for
the read user, applied at the default limit. -/
theorem get_history_spec_witness :
    (getHistoryEndpoint sampleHistDB "u").length ≤ 100 ∧
    (getHistoryEndpoint sampleHistDB "u").length
      = min 100 (sampleHistDB.history.filter (fun r => r.user_id = "u")).length ∧
    (getHistoryEndpoint sampleHistDB "u").Pairwise (fun e f => f.timestamp < e.timestamp) :=
  ⟨(get_history_spec sampleHistDB "u" (by decide)).1,
   (get_history_spec sampleHistDB "u" (by decide)).2.1,
   (get_history_spec sampleHistDB "u" (by decide)).2.2.1⟩

end InterviewCopilot
